import Mathlib

/-!
Verification of the orchestration logic of `src/main.py`
(BusinessProcessAnalyser).  The single function `run_process_advisor`
is embedded as a pure trace-producing function: every externally
observable action (console output, platform calls that create or delete
resources, file writes) becomes an `Event` in an ordered trace, the
nondeterminism of the environment (env settings, console input, platform
failures, run status, thread messages) is an explicit `Env` record, and a
Python exception that escapes the function is the `raised` field of the
result.  String-level helpers (`pyStrip`, `custom_commands`,
`user_message`, `markdownContent`, `assistantTexts`, `full_report`)
transliterate the corresponding expressions of the source.
-/

/-- Python `str.strip()` whitespace test, restricted to the ASCII
whitespace characters (space, tab, newline, carriage return, vertical
tab, form feed). -/
def isPySpace (c : Char) : Bool :=
  c == ' ' || c == '\t' || c == '\n' || c == '\r' ||
  c == Char.ofNat 11 || c == Char.ofNat 12

/-- Python `s.strip()`: drop leading and trailing whitespace. -/
def pyStrip (s : String) : String :=
  String.mk (((s.toList.dropWhile isPySpace).reverse.dropWhile isPySpace).reverse)

/-- A thread message as the collector at `main.py:167-171` sees it:
a `role` string and the ordered list of text-segment values
(`m.text_messages`, each segment contributing its `.text.value`). -/
structure Message where
  role : String
  text_messages : List String
  deriving DecidableEq, Repr

/-- Observable actions of `run_process_advisor`, in program order.
`dataQualityWarning` exists only to state the specification claim that a
structural validator reports missing report sections to the caller; no
statement of `src/main.py` emits such a warning, so no branch of the
embedding produces this constructor. -/
inductive Event where
  | print (s : String)
  | createAgent (name : String)
  | createThread
  | postMessage (content : String)
  | createRun
  | runFailedNotice (lastError : String)
  | listMessages
  | writeMarkdown (content : String)
  | writeJson (fullReport : String)
  | deleteAttempt (name : String)
  | deleteWarning (name : String)
  | dataQualityWarning (s : String)
  deriving DecidableEq, Repr

/-- Which of the three agent definitions have been created (bound to a
local variable), in the sense used by the `locals().get` lookups of the
cleanup block at `main.py:210-214`. -/
structure Created where
  analysis : Bool
  optimizer : Bool
  orchestrator : Bool
  deriving DecidableEq, Repr

/-- Environment of one invocation: configuration, console input, and the
behaviour of the external agent platform (which calls raise, what status
the run reaches, which messages the thread holds, which deletions
fail).  `none` for a setting models an unset environment variable. -/
structure Env where
  projectEndpoint : Option String
  modelDeployment : Option String
  processLines : List String
  customRaw : String
  dateStr : String
  failCreateAnalysis : Bool
  failCreateOptimizer : Bool
  failCreateOrchestrator : Bool
  failCreateThread : Bool
  failPostMessage : Bool
  failRunCall : Bool
  runStatus : String
  lastError : String
  failListMessages : Bool
  threadMessages : List Message
  failSave : Bool
  failDeleteOrchestrator : Bool
  failDeleteAnalysis : Bool
  failDeleteOptimizer : Bool
  deriving DecidableEq, Repr

/-- Python truthiness test of `main.py:35`: `not X` holds for an unset
variable (`None`) and for the empty string. -/
def falsy (o : Option String) : Bool :=
  o.getD "" == ""

/-- The custom-instructions value of `main.py:61`:
`input(...).strip() or "none"`. -/
def custom_commands (raw : String) : String :=
  if pyStrip raw == "" then "none" else pyStrip raw

/-- The user message assembled at `main.py:139-142`. -/
def user_message (pd cc : String) : String :=
  "Process description:\n" ++ pd ++ "\n" ++
  (if cc ≠ "none" then "\nAdditional instructions: " ++ cc ++ "\n" else "") ++
  "\nPlease analyse and optimise this process."

/-- The Markdown artifact written at `main.py:182-190`. -/
def markdownContent (dateStr pd cc fullReport : String) : String :=
  "# Business Process Automation Report\n\n" ++
  "**Date:** " ++ dateStr ++ "\n\n" ++
  "## Original Process Description\n" ++
  "```\n" ++ pd ++ "\n```\n\n" ++
  (if cc ≠ "none" then "**Additional Instructions:** " ++ cc ++ "\n\n" else "") ++
  "## Full Report\n\n" ++ fullReport

/-- The collection loop of `main.py:166-170`: fold over the listed
messages in order, appending the final text segment of each message that
is assistant-authored and has at least one text segment (the Python
guard `m.role == "assistant" and m.text_messages`). -/
def assistantTexts (msgs : List Message) : List String :=
  msgs.foldl
    (fun acc m =>
      if m.role == "assistant" && !m.text_messages.isEmpty then
        acc ++ [m.text_messages.getLastD ""]
      else acc)
    []

/-- `full_report` of `main.py:173`: newline-join of the collected
assistant texts. -/
def full_report (msgs : List Message) : String :=
  String.intercalate "\n" (assistantTexts msgs)

/-- The filter-and-map reading of §4.5 of the specification: retain only
assistant-authored messages bearing text, take the final text segment of
each.  Stated from the words of the spec, to be compared with the loop
transliteration `assistantTexts`. -/
def assistantTextsSpec (msgs : List Message) : List String :=
  (msgs.filter (fun m => m.role == "assistant" && !m.text_messages.isEmpty)).map
    (fun m => m.text_messages.getLastD "")

/-- The body of the `try` block (`main.py:44-205`): returns the trace of
events it performed, the exception it raised (if any), and which agent
definitions were created.  A platform call that fails raises without
binding its result, so it contributes no creation event. -/
def body (env : Env) : List Event × Option String × Created :=
  let banner := Event.print "--- Business Process Automation Advisor ---"
  let pd := String.intercalate "\n" env.processLines
  if pyStrip pd == "" then
    ([banner, .print "No process description provided. Exiting."], none,
      ⟨false, false, false⟩)
  else
    let cc := custom_commands env.customRaw
    if env.failCreateAnalysis then
      ([banner], some "create_agent failed", ⟨false, false, false⟩)
    else if env.failCreateOptimizer then
      ([banner, .createAgent "process_analysis_agent"],
        some "create_agent failed", ⟨true, false, false⟩)
    else if env.failCreateOrchestrator then
      ([banner, .createAgent "process_analysis_agent",
        .createAgent "process_optimization_advisor"],
        some "create_agent failed", ⟨true, true, false⟩)
    else if env.failCreateThread then
      ([banner, .createAgent "process_analysis_agent",
        .createAgent "process_optimization_advisor",
        .createAgent "process_orchestrator"],
        some "threads.create failed", ⟨true, true, true⟩)
    else if env.failPostMessage then
      ([banner, .createAgent "process_analysis_agent",
        .createAgent "process_optimization_advisor",
        .createAgent "process_orchestrator", .createThread],
        some "messages.create failed", ⟨true, true, true⟩)
    else if env.failRunCall then
      ([banner, .createAgent "process_analysis_agent",
        .createAgent "process_optimization_advisor",
        .createAgent "process_orchestrator", .createThread,
        .postMessage (user_message pd cc)],
        some "runs.create_and_process failed", ⟨true, true, true⟩)
    else if env.runStatus == "failed" then
      ([banner, .createAgent "process_analysis_agent",
        .createAgent "process_optimization_advisor",
        .createAgent "process_orchestrator", .createThread,
        .postMessage (user_message pd cc), .createRun,
        .runFailedNotice env.lastError],
        none, ⟨true, true, true⟩)
    else if env.failListMessages then
      ([banner, .createAgent "process_analysis_agent",
        .createAgent "process_optimization_advisor",
        .createAgent "process_orchestrator", .createThread,
        .postMessage (user_message pd cc), .createRun],
        some "messages.list failed", ⟨true, true, true⟩)
    else if env.failSave then
      ([banner, .createAgent "process_analysis_agent",
        .createAgent "process_optimization_advisor",
        .createAgent "process_orchestrator", .createThread,
        .postMessage (user_message pd cc), .createRun, .listMessages],
        some "saving output failed", ⟨true, true, true⟩)
    else
      ([banner, .createAgent "process_analysis_agent",
        .createAgent "process_optimization_advisor",
        .createAgent "process_orchestrator", .createThread,
        .postMessage (user_message pd cc), .createRun, .listMessages,
        .writeMarkdown
          (markdownContent env.dateStr pd cc (full_report env.threadMessages)),
        .writeJson (full_report env.threadMessages)],
        none, ⟨true, true, true⟩)

/-- Cleanup of one agent definition inside the loop at
`main.py:215-220`: if the definition was created, attempt the deletion;
a failing deletion is caught and logged as a warning. -/
def cleanupOne (name : String) (created failDel : Bool) : List Event :=
  if created then
    .deleteAttempt name :: (if failDel then [.deleteWarning name] else [])
  else []

/-- The `finally` block at `main.py:207-221`: attempts, in the order
orchestrator, analysis, optimizer, to delete every created agent
definition; it performs no other platform call and raises nothing. -/
def cleanup (env : Env) (c : Created) : List Event :=
  .print "Cleaning up agents..." ::
  (cleanupOne "process_orchestrator" c.orchestrator env.failDeleteOrchestrator ++
   cleanupOne "process_analysis_agent" c.analysis env.failDeleteAnalysis ++
   cleanupOne "process_optimization_advisor" c.optimizer env.failDeleteOptimizer ++
   [.print "Done."])

/-- Result of one invocation: the ordered trace of observable events and
the exception that escaped to the caller, if any. -/
structure RunResult where
  trace : List Event
  raised : Option String
  deriving DecidableEq, Repr

/-- `run_process_advisor` (`main.py:28-221`): the configuration check of
lines 32-36 runs before the `try` block, so a missing setting raises
with an empty trace; otherwise the body runs and the `finally` cleanup
is appended to its trace on every path, after which the body exception
(if any) propagates. -/
def run_process_advisor (env : Env) : RunResult :=
  if falsy env.projectEndpoint || falsy env.modelDeployment then
    { trace := [],
      raised := some "Set PROJECT_ENDPOINT and MODEL_DEPLOYMENT_NAME in your .env file." }
  else
    { trace := (body env).1 ++ cleanup env (body env).2.2,
      raised := (body env).2.1 }

/-- Event classifiers used by the theorems. -/
def isCreateAgentNamed (n : String) : Event → Bool
  | .createAgent m => m == n
  | _ => false

def isDeleteAttemptNamed (n : String) : Event → Bool
  | .deleteAttempt m => m == n
  | _ => false

def isDeleteWarningNamed (n : String) : Event → Bool
  | .deleteWarning m => m == n
  | _ => false

def isPrint : Event → Bool
  | .print _ => true
  | _ => false

def isCreateRun : Event → Bool
  | .createRun => true
  | _ => false

def isListMessages : Event → Bool
  | .listMessages => true
  | _ => false

def isWriteMarkdown : Event → Bool
  | .writeMarkdown _ => true
  | _ => false

def isWriteJson : Event → Bool
  | .writeJson _ => true
  | _ => false

def isDataQualityWarning : Event → Bool
  | .dataQualityWarning _ => true
  | _ => false

/-- Number of events of a trace satisfying a classifier. -/
def countE (p : Event → Bool) (tr : List Event) : Nat :=
  (tr.filter p).length

/-! Helper lemmas shared by the claim theorems. -/

theorem countE_append (p : Event → Bool) (a b : List Event) :
    countE p (a ++ b) = countE p a + countE p b := by
  simp [countE, List.filter_append]


/-- Case analysis of the try-block body: event counts of its trace.
The body never deletes an agent and never emits a data-quality warning,
and it emits one creation event per agent definition it reports as
created, whichever branch is taken. -/
theorem body_stats (env : Env) (n : String) :
    countE (isDeleteAttemptNamed n) (body env).1 = 0
  ∧ countE isDataQualityWarning (body env).1 = 0
  ∧ countE (isCreateAgentNamed "process_orchestrator") (body env).1
      = (if (body env).2.2.orchestrator then 1 else 0)
  ∧ countE (isCreateAgentNamed "process_analysis_agent") (body env).1
      = (if (body env).2.2.analysis then 1 else 0)
  ∧ countE (isCreateAgentNamed "process_optimization_advisor") (body env).1
      = (if (body env).2.2.optimizer then 1 else 0) := by
  by_cases hpd : pyStrip (String.intercalate "\n" env.processLines) = ""
  · simp [body, hpd, countE, isDeleteAttemptNamed, isDataQualityWarning, isCreateAgentNamed]
  by_cases h1 : env.failCreateAnalysis = true
  · simp [body, hpd, h1, countE, isDeleteAttemptNamed, isDataQualityWarning, isCreateAgentNamed]
  by_cases h2 : env.failCreateOptimizer = true
  · simp [body, hpd, h1, h2, countE, isDeleteAttemptNamed, isDataQualityWarning, isCreateAgentNamed]
  by_cases h3 : env.failCreateOrchestrator = true
  · simp [body, hpd, h1, h2, h3, countE, isDeleteAttemptNamed, isDataQualityWarning, isCreateAgentNamed]
  by_cases h4 : env.failCreateThread = true
  · simp [body, hpd, h1, h2, h3, h4, countE, isDeleteAttemptNamed, isDataQualityWarning, isCreateAgentNamed]
  by_cases h5 : env.failPostMessage = true
  · simp [body, hpd, h1, h2, h3, h4, h5, countE, isDeleteAttemptNamed, isDataQualityWarning, isCreateAgentNamed]
  by_cases h6 : env.failRunCall = true
  · simp [body, hpd, h1, h2, h3, h4, h5, h6, countE, isDeleteAttemptNamed, isDataQualityWarning, isCreateAgentNamed]
  by_cases h7 : env.runStatus = "failed"
  · simp [body, hpd, h1, h2, h3, h4, h5, h6, h7, countE, isDeleteAttemptNamed, isDataQualityWarning, isCreateAgentNamed]
  by_cases h8 : env.failListMessages = true
  · simp [body, hpd, h1, h2, h3, h4, h5, h6, h7, h8, countE, isDeleteAttemptNamed, isDataQualityWarning, isCreateAgentNamed]
  by_cases h9 : env.failSave = true
  · simp [body, hpd, h1, h2, h3, h4, h5, h6, h7, h8, h9, countE, isDeleteAttemptNamed, isDataQualityWarning, isCreateAgentNamed]
  · simp [body, hpd, h1, h2, h3, h4, h5, h6, h7, h8, h9, countE, isDeleteAttemptNamed, isDataQualityWarning, isCreateAgentNamed]

/-- Case analysis of the cleanup block: event counts of its trace.
Cleanup creates nothing and warns of nothing but deletions; it attempts
exactly one deletion per created definition, whether or not any of the
deletions fail. -/
theorem cleanup_stats (env : Env) (c : Created) (n : String) :
    countE (isCreateAgentNamed n) (cleanup env c) = 0
  ∧ countE isDataQualityWarning (cleanup env c) = 0
  ∧ countE (isDeleteAttemptNamed "process_orchestrator") (cleanup env c)
      = (if c.orchestrator then 1 else 0)
  ∧ countE (isDeleteAttemptNamed "process_analysis_agent") (cleanup env c)
      = (if c.analysis then 1 else 0)
  ∧ countE (isDeleteAttemptNamed "process_optimization_advisor") (cleanup env c)
      = (if c.optimizer then 1 else 0)
  ∧ countE isCreateRun (cleanup env c) = 0
  ∧ countE isListMessages (cleanup env c) = 0
  ∧ countE isWriteMarkdown (cleanup env c) = 0
  ∧ countE isWriteJson (cleanup env c) = 0
  ∧ (c.orchestrator = true → Event.deleteAttempt "process_orchestrator" ∈ cleanup env c)
  ∧ (c.analysis = true → Event.deleteAttempt "process_analysis_agent" ∈ cleanup env c)
  ∧ (c.optimizer = true → Event.deleteAttempt "process_optimization_advisor" ∈ cleanup env c)
  ∧ (c.orchestrator = true → env.failDeleteOrchestrator = true →
      Event.deleteWarning "process_orchestrator" ∈ cleanup env c) := by
  obtain ⟨ca, co, cor⟩ := c
  cases ca <;> cases co <;> cases cor <;>
    by_cases hd1 : env.failDeleteOrchestrator = true <;>
    by_cases hd2 : env.failDeleteAnalysis = true <;>
    by_cases hd3 : env.failDeleteOptimizer = true <;>
    simp [cleanup, cleanupOne, hd1, hd2, hd3, countE, isCreateAgentNamed,
      isDeleteAttemptNamed, isDataQualityWarning, isCreateRun, isListMessages,
      isWriteMarkdown, isWriteJson]

theorem body_delete_count (env : Env) (n : String) :
    countE (isDeleteAttemptNamed n) (body env).1 = 0 :=
  (body_stats env n).1

theorem body_create_orch (env : Env) :
    countE (isCreateAgentNamed "process_orchestrator") (body env).1
      = (if (body env).2.2.orchestrator then 1 else 0) :=
  (body_stats env "").2.2.1

theorem body_create_analysis (env : Env) :
    countE (isCreateAgentNamed "process_analysis_agent") (body env).1
      = (if (body env).2.2.analysis then 1 else 0) :=
  (body_stats env "").2.2.2.1

theorem body_create_optimizer (env : Env) :
    countE (isCreateAgentNamed "process_optimization_advisor") (body env).1
      = (if (body env).2.2.optimizer then 1 else 0) :=
  (body_stats env "").2.2.2.2

theorem cleanup_create_count (env : Env) (c : Created) (n : String) :
    countE (isCreateAgentNamed n) (cleanup env c) = 0 :=
  (cleanup_stats env c n).1

theorem cleanup_delete_orch (env : Env) (c : Created) :
    countE (isDeleteAttemptNamed "process_orchestrator") (cleanup env c)
      = (if c.orchestrator then 1 else 0) :=
  (cleanup_stats env c "").2.2.1

theorem cleanup_delete_analysis (env : Env) (c : Created) :
    countE (isDeleteAttemptNamed "process_analysis_agent") (cleanup env c)
      = (if c.analysis then 1 else 0) :=
  (cleanup_stats env c "").2.2.2.1

theorem cleanup_delete_optimizer (env : Env) (c : Created) :
    countE (isDeleteAttemptNamed "process_optimization_advisor") (cleanup env c)
      = (if c.optimizer then 1 else 0) :=
  (cleanup_stats env c "").2.2.2.2.1

/-- C3: For every environment — normal completion, failed run, or an
exception at any modelled point — the number of delete attempts for
each of the three agent definitions equals the number of its creations,
and each definition is created at most once: a delete attempt is made
exactly once for each created definition, on every exit path. -/
theorem cleanup_exactly_once_per_created (env : Env) :
    (countE (isDeleteAttemptNamed "process_orchestrator") (run_process_advisor env).trace
      = countE (isCreateAgentNamed "process_orchestrator") (run_process_advisor env).trace)
    ∧ (countE (isDeleteAttemptNamed "process_analysis_agent") (run_process_advisor env).trace
      = countE (isCreateAgentNamed "process_analysis_agent") (run_process_advisor env).trace)
    ∧ (countE (isDeleteAttemptNamed "process_optimization_advisor") (run_process_advisor env).trace
      = countE (isCreateAgentNamed "process_optimization_advisor") (run_process_advisor env).trace)
    ∧ countE (isCreateAgentNamed "process_orchestrator") (run_process_advisor env).trace ≤ 1
    ∧ countE (isCreateAgentNamed "process_analysis_agent") (run_process_advisor env).trace ≤ 1
    ∧ countE (isCreateAgentNamed "process_optimization_advisor") (run_process_advisor env).trace ≤ 1 := by
  unfold run_process_advisor
  split
  · simp [countE]
  · refine ⟨?_, ?_, ?_, ?_, ?_, ?_⟩ <;>
      simp only [countE_append, body_delete_count, body_create_orch, body_create_analysis,
        body_create_optimizer, cleanup_create_count, cleanup_delete_orch,
        cleanup_delete_analysis, cleanup_delete_optimizer, Nat.zero_add, Nat.add_zero] <;>
      split <;> simp

/-- A concrete healthy environment: configuration present, a non-blank
process description, no platform failures, a completed run with one
assistant message. -/
def baseEnv : Env :=
  { projectEndpoint := some "https://example.endpoint",
    modelDeployment := some "gpt-4o",
    processLines := ["Customer submits support ticket via email"],
    customRaw := "none", dateStr := "2026-10-12",
    failCreateAnalysis := false, failCreateOptimizer := false,
    failCreateOrchestrator := false, failCreateThread := false,
    failPostMessage := false, failRunCall := false,
    runStatus := "completed", lastError := "",
    failListMessages := false,
    threadMessages := [{ role := "assistant", text_messages := ["report text"] }],
    failSave := false, failDeleteOrchestrator := false,
    failDeleteAnalysis := false, failDeleteOptimizer := false }

/-- With the configuration present, the invocation is the body trace
followed by the cleanup trace, raising what the body raised. -/
theorem run_unfold (env : Env)
    (hep : falsy env.projectEndpoint = false)
    (hmd : falsy env.modelDeployment = false) :
    run_process_advisor env =
      { trace := (body env).1 ++ cleanup env (body env).2.2,
        raised := (body env).2.1 } := by
  unfold run_process_advisor
  rw [hep, hmd]
  rfl

/-- C4: A failing deletion of the first-attempted definition (the
orchestrator) is logged as a warning, the delete attempts on the two
remaining definitions still happen, and what the invocation raises is
exactly what the body raised — cleanup contributes no exception. -/
theorem cleanup_failure_nonblocking (env : Env)
    (hep : falsy env.projectEndpoint = false)
    (hmd : falsy env.modelDeployment = false)
    (hall : (body env).2.2 = ⟨true, true, true⟩)
    (hfail : env.failDeleteOrchestrator = true) :
    Event.deleteWarning "process_orchestrator" ∈ (run_process_advisor env).trace
  ∧ Event.deleteAttempt "process_analysis_agent" ∈ (run_process_advisor env).trace
  ∧ Event.deleteAttempt "process_optimization_advisor" ∈ (run_process_advisor env).trace
  ∧ (run_process_advisor env).raised = (body env).2.1 := by
  rw [run_unfold env hep hmd]
  refine ⟨?_, ?_, ?_, rfl⟩ <;>
    · rw [List.mem_append]
      right
      rw [hall]
      by_cases hd2 : env.failDeleteAnalysis = true <;>
        by_cases hd3 : env.failDeleteOptimizer = true <;>
        simp [cleanup, cleanupOne, hfail, hd2, hd3]

def envC4 : Env := { baseEnv with failDeleteOrchestrator := true }

theorem cleanup_failure_nonblocking_witness :
    Event.deleteWarning "process_orchestrator" ∈ (run_process_advisor envC4).trace
  ∧ Event.deleteAttempt "process_analysis_agent" ∈ (run_process_advisor envC4).trace
  ∧ Event.deleteAttempt "process_optimization_advisor" ∈ (run_process_advisor envC4).trace
  ∧ (run_process_advisor envC4).raised = (body envC4).2.1 :=
  cleanup_failure_nonblocking envC4 rfl rfl (by decide) rfl

/-- C5: With configuration present, a process description that strips
to the empty string makes the invocation return normally with a trace
of console messages only: no agent definition, thread, run, message, or
file-write event occurs. -/
theorem blank_description_no_op (env : Env)
    (hep : falsy env.projectEndpoint = false)
    (hmd : falsy env.modelDeployment = false)
    (hpd : pyStrip (String.intercalate "\n" env.processLines) = "") :
    (run_process_advisor env).trace.all isPrint = true
  ∧ Event.print "No process description provided. Exiting." ∈ (run_process_advisor env).trace
  ∧ (run_process_advisor env).raised = none := by
  rw [run_unfold env hep hmd]
  simp [body, hpd, cleanup, cleanupOne, isPrint]

def envC5 : Env := { baseEnv with processLines := ["   ", "\t"] }

theorem blank_description_no_op_witness :
    (run_process_advisor envC5).trace.all isPrint = true
  ∧ Event.print "No process description provided. Exiting." ∈ (run_process_advisor envC5).trace
  ∧ (run_process_advisor envC5).raised = none :=
  blank_description_no_op envC5 rfl rfl (by decide)

/-- C6: If the project endpoint or the model deployment setting is
absent (or empty), the invocation raises the configuration error with
an empty trace: no resource of any kind was created, so there is
nothing to clean up. -/
theorem missing_config_preflight (env : Env)
    (h : falsy env.projectEndpoint = true ∨ falsy env.modelDeployment = true) :
    (run_process_advisor env).trace = []
  ∧ (run_process_advisor env).raised
      = some "Set PROJECT_ENDPOINT and MODEL_DEPLOYMENT_NAME in your .env file." := by
  unfold run_process_advisor
  rcases h with h | h <;> simp [h]

def envC6 : Env := { baseEnv with projectEndpoint := none }

theorem missing_config_preflight_witness :
    (run_process_advisor envC6).trace = []
  ∧ (run_process_advisor envC6).raised
      = some "Set PROJECT_ENDPOINT and MODEL_DEPLOYMENT_NAME in your .env file." :=
  missing_config_preflight envC6 (Or.inl rfl)

/-- C7: When the run reaches the failed status, the invocation prints
the failure notice carrying the platform last_error, creates exactly
one run (no retry), and returns without raising. -/
theorem run_failed_surfaced (env : Env)
    (hep : falsy env.projectEndpoint = false)
    (hmd : falsy env.modelDeployment = false)
    (hpd : ¬ pyStrip (String.intercalate "\n" env.processLines) = "")
    (h1 : env.failCreateAnalysis = false) (h2 : env.failCreateOptimizer = false)
    (h3 : env.failCreateOrchestrator = false) (h4 : env.failCreateThread = false)
    (h5 : env.failPostMessage = false) (h6 : env.failRunCall = false)
    (hst : env.runStatus = "failed") :
    Event.runFailedNotice env.lastError ∈ (run_process_advisor env).trace
  ∧ countE isCreateRun (run_process_advisor env).trace = 1
  ∧ (run_process_advisor env).raised = none := by
  rw [run_unfold env hep hmd]
  obtain ⟨-, -, -, -, -, hcr, -, -, -, -, -, -, -⟩ :=
    cleanup_stats env (body env).2.2 ""
  refine ⟨?_, ?_, ?_⟩
  · rw [List.mem_append]
    left
    simp [body, hpd, h1, h2, h3, h4, h5, h6, hst]
  · rw [countE_append, hcr]
    simp [body, hpd, h1, h2, h3, h4, h5, h6, hst, countE, isCreateRun]
  · simp [body, hpd, h1, h2, h3, h4, h5, h6, hst]

def envC7 : Env := { baseEnv with runStatus := "failed", lastError := "rate limit exceeded" }

theorem run_failed_surfaced_witness :
    Event.runFailedNotice envC7.lastError ∈ (run_process_advisor envC7).trace
  ∧ countE isCreateRun (run_process_advisor envC7).trace = 1
  ∧ (run_process_advisor envC7).raised = none :=
  run_failed_surfaced envC7 rfl rfl (by decide) rfl rfl rfl rfl rfl rfl rfl

/-- C9: When the run reaches the failed status, the invocation reads no
thread messages and writes neither the Markdown nor the JSON artifact,
while the cleanup attempts on all three created agent definitions still
happen. -/
theorem run_failed_no_artifacts (env : Env)
    (hep : falsy env.projectEndpoint = false)
    (hmd : falsy env.modelDeployment = false)
    (hpd : ¬ pyStrip (String.intercalate "\n" env.processLines) = "")
    (h1 : env.failCreateAnalysis = false) (h2 : env.failCreateOptimizer = false)
    (h3 : env.failCreateOrchestrator = false) (h4 : env.failCreateThread = false)
    (h5 : env.failPostMessage = false) (h6 : env.failRunCall = false)
    (hst : env.runStatus = "failed") :
    countE isListMessages (run_process_advisor env).trace = 0
  ∧ countE isWriteMarkdown (run_process_advisor env).trace = 0
  ∧ countE isWriteJson (run_process_advisor env).trace = 0
  ∧ Event.deleteAttempt "process_orchestrator" ∈ (run_process_advisor env).trace
  ∧ Event.deleteAttempt "process_analysis_agent" ∈ (run_process_advisor env).trace
  ∧ Event.deleteAttempt "process_optimization_advisor" ∈ (run_process_advisor env).trace := by
  rw [run_unfold env hep hmd]
  have h22 : (body env).2.2 = ⟨true, true, true⟩ := by
    simp [body, hpd, h1, h2, h3, h4, h5, h6, hst]
  obtain ⟨-, -, -, -, -, -, hlm, hwm, hwj, hmo, hma, hmp, -⟩ :=
    cleanup_stats env (body env).2.2 ""
  refine ⟨?_, ?_, ?_, ?_, ?_, ?_⟩
  · rw [countE_append, hlm]
    simp [body, hpd, h1, h2, h3, h4, h5, h6, hst, countE, isListMessages]
  · rw [countE_append, hwm]
    simp [body, hpd, h1, h2, h3, h4, h5, h6, hst, countE, isWriteMarkdown]
  · rw [countE_append, hwj]
    simp [body, hpd, h1, h2, h3, h4, h5, h6, hst, countE, isWriteJson]
  · exact List.mem_append.mpr (Or.inr (hmo (by rw [h22])))
  · exact List.mem_append.mpr (Or.inr (hma (by rw [h22])))
  · exact List.mem_append.mpr (Or.inr (hmp (by rw [h22])))

def envC9 : Env := { baseEnv with runStatus := "failed", lastError := "server error" }

theorem run_failed_no_artifacts_witness :
    countE isListMessages (run_process_advisor envC9).trace = 0
  ∧ countE isWriteMarkdown (run_process_advisor envC9).trace = 0
  ∧ countE isWriteJson (run_process_advisor envC9).trace = 0
  ∧ Event.deleteAttempt "process_orchestrator" ∈ (run_process_advisor envC9).trace
  ∧ Event.deleteAttempt "process_analysis_agent" ∈ (run_process_advisor envC9).trace
  ∧ Event.deleteAttempt "process_optimization_advisor" ∈ (run_process_advisor envC9).trace :=
  run_failed_no_artifacts envC9 rfl rfl (by decide) rfl rfl rfl rfl rfl rfl rfl

def envC2 : Env := { baseEnv with threadMessages := [{ role := "assistant", text_messages := ["hello"] }] }

/-- C2, counterexample: a completed run whose assembled full_text is
"hello" — containing neither mandated top section — produces no
data-quality warning of any kind; the Markdown artifact is still
written and the invocation returns normally.  No validator runs after
completion. -/
theorem no_validator_counterexample :
    full_report envC2.threadMessages = "hello"
  ∧ ¬ ("PROCESS ANALYSIS".toList <:+: (full_report envC2.threadMessages).toList)
  ∧ ¬ ("OPTIMIZATION RECOMMENDATIONS".toList <:+: (full_report envC2.threadMessages).toList)
  ∧ countE isDataQualityWarning (run_process_advisor envC2).trace = 0
  ∧ countE isWriteMarkdown (run_process_advisor envC2).trace = 1
  ∧ (run_process_advisor envC2).raised = none := by
  refine ⟨rfl, by decide, by decide, rfl, rfl, rfl⟩

/-- C2, amended: after a completed run the code performs no structural
validation of the assembled full_text — no data-quality warning is ever
emitted on any path — and the Markdown and JSON artifacts embedding the
assembled full_text are written regardless of its content. -/
theorem report_saved_without_validation (env : Env)
    (hep : falsy env.projectEndpoint = false)
    (hmd : falsy env.modelDeployment = false)
    (hpd : ¬ pyStrip (String.intercalate "\n" env.processLines) = "")
    (h1 : env.failCreateAnalysis = false) (h2 : env.failCreateOptimizer = false)
    (h3 : env.failCreateOrchestrator = false) (h4 : env.failCreateThread = false)
    (h5 : env.failPostMessage = false) (h6 : env.failRunCall = false)
    (hst : env.runStatus = "completed")
    (h7 : env.failListMessages = false) (h8 : env.failSave = false) :
    countE isDataQualityWarning (run_process_advisor env).trace = 0
  ∧ Event.writeMarkdown
      (markdownContent env.dateStr (String.intercalate "\n" env.processLines)
        (custom_commands env.customRaw) (full_report env.threadMessages))
      ∈ (run_process_advisor env).trace
  ∧ Event.writeJson (full_report env.threadMessages) ∈ (run_process_advisor env).trace
  ∧ (run_process_advisor env).raised = none := by
  rw [run_unfold env hep hmd]
  obtain ⟨-, hdq, -, -, -, -, -, -, -, -, -, -, -⟩ :=
    cleanup_stats env (body env).2.2 ""
  refine ⟨?_, ?_, ?_, ?_⟩
  · rw [countE_append, hdq, (body_stats env "").2.1]
  · rw [List.mem_append]
    left
    simp [body, hpd, h1, h2, h3, h4, h5, h6, hst, h7, h8]
  · rw [List.mem_append]
    left
    simp [body, hpd, h1, h2, h3, h4, h5, h6, hst, h7, h8]
  · simp [body, hpd, h1, h2, h3, h4, h5, h6, hst, h7, h8]

def envC2w : Env := { baseEnv with customRaw := "focus on cost" }

theorem report_saved_without_validation_witness :
    countE isDataQualityWarning (run_process_advisor envC2w).trace = 0
  ∧ Event.writeMarkdown
      (markdownContent envC2w.dateStr (String.intercalate "\n" envC2w.processLines)
        (custom_commands envC2w.customRaw) (full_report envC2w.threadMessages))
      ∈ (run_process_advisor envC2w).trace
  ∧ Event.writeJson (full_report envC2w.threadMessages) ∈ (run_process_advisor envC2w).trace
  ∧ (run_process_advisor envC2w).raised = none :=
  report_saved_without_validation envC2w rfl rfl (by decide) rfl rfl rfl rfl rfl rfl rfl rfl rfl

/-- The collection loop is the filter-and-map of the specification: the
fold visits the messages in list order (ascending creation order, the
order requested at `main.py:162`) and appends exactly the final text
segments of the assistant-authored messages bearing text. -/
theorem assistantTexts_eq_spec (msgs : List Message) :
    assistantTexts msgs = assistantTextsSpec msgs := by
  have h : ∀ acc : List String,
      msgs.foldl
        (fun acc m =>
          if m.role == "assistant" && !m.text_messages.isEmpty then
            acc ++ [m.text_messages.getLastD ""]
          else acc) acc
        = acc ++ assistantTextsSpec msgs := by
    induction msgs with
    | nil => intro acc; simp [assistantTextsSpec]
    | cons m ms ih =>
      intro acc
      have hspec : assistantTextsSpec (m :: ms)
          = (if (m.role == "assistant" && !m.text_messages.isEmpty) = true then
              m.text_messages.getLastD "" :: assistantTextsSpec ms
            else assistantTextsSpec ms) := by
        by_cases hm : (m.role == "assistant" && !m.text_messages.isEmpty) = true
        · rw [if_pos hm]
          unfold assistantTextsSpec
          rw [List.filter_cons, if_pos hm, List.map_cons]
        · rw [if_neg hm]
          unfold assistantTextsSpec
          rw [List.filter_cons, if_neg hm]
      rw [List.foldl_cons, hspec]
      by_cases hm : (m.role == "assistant" && !m.text_messages.isEmpty) = true
      · simp only [if_pos hm]
        rw [ih]
        simp
      · simp only [if_neg hm]
        rw [ih]
  simpa [assistantTexts] using h []

/-- C8, counterexample: with two kept assistant messages the code joins
their final segments with a newline separator, which differs from the
plain concatenation of those segments. -/
theorem full_report_not_concatenation :
    full_report [⟨"assistant", ["a"]⟩, ⟨"assistant", ["b"]⟩] = "a" ++ "\n" ++ "b"
  ∧ String.join (assistantTextsSpec [⟨"assistant", ["a"]⟩, ⟨"assistant", ["b"]⟩]) = "a" ++ "b"
  ∧ ("a" ++ "\n" ++ "b" : String) ≠ "a" ++ "b" := by
  refine ⟨rfl, rfl, by decide⟩

/-- C8, amended: full_text is formed by reading the messages in
ascending creation order, keeping only the assistant-authored messages
that have at least one text segment, taking the final text segment of
each kept message, and joining those segments in that order with a
newline separator. -/
theorem full_report_is_newline_join (msgs : List Message) :
    full_report msgs = String.intercalate "\n" (assistantTextsSpec msgs) := by
  rw [full_report, assistantTexts_eq_spec]

/-- C10: The sentinel test is case-sensitive equality with "none" after
stripping, the empty stripped input being normalised to "none": the
additional-instructions line is omitted from the posted user message
and from the Markdown artifact exactly when the stripped input is
"none" or empty, and any other stripped value — "None" and "NONE"
included — appears verbatim in both. -/
theorem custom_instructions_sentinel (raw pd dateStr rep : String) :
    (custom_commands raw = "none" ↔ (pyStrip raw = "none" ∨ pyStrip raw = ""))
  ∧ user_message pd (custom_commands raw)
      = (if pyStrip raw = "none" ∨ pyStrip raw = "" then
           "Process description:\n" ++ pd ++ "\n" ++
           "\nPlease analyse and optimise this process."
         else
           "Process description:\n" ++ pd ++ "\n" ++
           ("\nAdditional instructions: " ++ pyStrip raw ++ "\n") ++
           "\nPlease analyse and optimise this process.")
  ∧ markdownContent dateStr pd (custom_commands raw) rep
      = (if pyStrip raw = "none" ∨ pyStrip raw = "" then
           "# Business Process Automation Report\n\n" ++
           "**Date:** " ++ dateStr ++ "\n\n" ++
           "## Original Process Description\n" ++
           "```\n" ++ pd ++ "\n```\n\n" ++
           "## Full Report\n\n" ++ rep
         else
           "# Business Process Automation Report\n\n" ++
           "**Date:** " ++ dateStr ++ "\n\n" ++
           "## Original Process Description\n" ++
           "```\n" ++ pd ++ "\n```\n\n" ++
           ("**Additional Instructions:** " ++ pyStrip raw ++ "\n\n") ++
           "## Full Report\n\n" ++ rep) := by
  by_cases h0 : pyStrip raw = ""
  · simp [custom_commands, user_message, markdownContent, h0]
  · by_cases h1 : pyStrip raw = "none"
    · simp [custom_commands, user_message, markdownContent, h0, h1]
    · simp [custom_commands, user_message, markdownContent, h0, h1]
